import Mathlib

/-!
Verification of the realtime room engine of the AI-persona chat relay
(`src/server/websocket.ts`): connection attachment, room presence,
message persistence and broadcast, and the AI-persona orchestration
pipeline with its fallback behavior.

The storage layer (`storage.ts`) is not part of the given sources; its
presence tracker and message persistence gateway are modelled from the
spec (sections 4.2, 3 and 6) and are marked as such below.  Everything
else is a direct shallow embedding of `websocket.ts`.

Conventions: machine state is passed explicitly; the effect of a handler
is the pair of the list of emitted wire events (in emission order) and
the storage state after the handler returns.  JavaScript truthiness of
`userId`/`roomId`/`personaId` guards is modelled exactly (`""` and `0`
are falsy).  Fallible external calls (persistence, generation) are
modelled by explicit success flags / `Except` results, mirroring the
`try`/`catch` structure of the source.
-/

/-- A persisted chat message (shared/schema `Message`). -/
structure Message where
  id : Nat
  roomId : Nat
  userId : Option String
  personaId : Option Nat
  message : String
deriving DecidableEq

/-- A persisted attachment (shared/schema `Attachment`). -/
structure Attachment where
  id : Nat
  messageId : Nat
  url : String
  fileName : String
  fileSize : Nat
  fileType : String
  attachmentType : String
deriving DecidableEq

/-- A user identity, as far as the realtime core consumes it. -/
structure User where
  id : String
deriving DecidableEq

/-- An AI persona definition (read-only from the core's perspective). -/
structure Persona where
  id : Nat
  name : String
  description : String
  samplePrompt : String
deriving DecidableEq

/-- A message augmented with its author/persona and attachments, as
broadcast on the wire (shared/schema `ChatMessage`). -/
structure ChatMessage where
  msg : Message
  user : Option User
  persona : Option Persona
  attachments : List Attachment
deriving DecidableEq

/-- The per-connection state kept on the websocket object
(`WebSocketClient`): the attached identity and room, if any. -/
structure Conn where
  userId : Option String
  roomId : Option Nat
deriving DecidableEq

/-- Insert shape for `storage.createMessage`. -/
structure InsertMessage where
  roomId : Nat
  userId : Option String
  personaId : Option Nat
  message : String
deriving DecidableEq

/-- Insert shape for `storage.createAttachment`. -/
structure InsertAttachment where
  messageId : Nat
  url : String
  fileName : String
  fileSize : Nat
  fileType : String
  attachmentType : String
deriving DecidableEq

/-- Modelled from the spec: the state of the storage collaborator
(`storage.ts` is not among the given sources).  Messages are kept most
recent first; `presence` is the Room Presence Tracker of spec section
4.2, a reference count per `(roomId, userId)` represented as a multiset
of pairs (the count of a pair in the list is its reference count). -/
structure Storage where
  nextId : Nat
  messages : List Message
  nextAttachmentId : Nat
  attachments : List Attachment
  presence : List (Nat × String)
deriving DecidableEq

/-- The storage state of a freshly started process: no messages, no
presence (presence is rebuilt from zero on process start). -/
def emptyStorage : Storage :=
  { nextId := 1, messages := [], nextAttachmentId := 1, attachments := [], presence := [] }

/-- Modelled from the spec: `storage.createMessage` durably creates a
message, assigning the next fresh id (spec section 3: message order is
the order in which the gateway assigns creation ids). -/
def createMessage (st : Storage) (im : InsertMessage) : Message × Storage :=
  let m : Message :=
    { id := st.nextId, roomId := im.roomId, userId := im.userId,
      personaId := im.personaId, message := im.message }
  (m, { st with nextId := st.nextId + 1, messages := m :: st.messages })

/-- Modelled from the spec: `storage.createAttachment` durably creates an
attachment row linked to its parent message. -/
def createAttachment (st : Storage) (ia : InsertAttachment) : Attachment × Storage :=
  let a : Attachment :=
    { id := st.nextAttachmentId, messageId := ia.messageId, url := ia.url,
      fileName := ia.fileName, fileSize := ia.fileSize, fileType := ia.fileType,
      attachmentType := ia.attachmentType }
  (a, { st with nextAttachmentId := st.nextAttachmentId + 1, attachments := a :: st.attachments })

/-- Modelled from the spec: `storage.getMessagesByRoom(roomId, limit?)`
returns the room's messages most recent first, up to `limit` of them
(spec sections 4.4 and 6). -/
def getMessagesByRoom (st : Storage) (roomId : Nat) (limit : Option Nat) : List Message :=
  let ms := st.messages.filter (fun m => decide (m.roomId = roomId))
  match limit with
  | some n => ms.take n
  | none => ms

/-- Modelled from the spec: `storage.addActiveUser` increments the
reference count of `(roomId, userId)` (spec section 4.2). -/
def addActiveUser (st : Storage) (roomId : Nat) (userId : String) : Storage :=
  { st with presence := (roomId, userId) :: st.presence }

/-- Remove the first occurrence of a pair from the presence multiset. -/
def eraseOnce : List (Nat × String) → Nat × String → List (Nat × String)
  | [], _ => []
  | p :: t, k => if p = k then t else p :: eraseOnce t k

/-- Modelled from the spec: `storage.removeActiveUser` decrements the
reference count of `(roomId, userId)`, dropping the user only when the
last of their connections in that room has detached (spec section 4.2). -/
def removeActiveUser (st : Storage) (roomId : Nat) (userId : String) : Storage :=
  { st with presence := eraseOnce st.presence (roomId, userId) }

/-- Modelled from the spec: `storage.getActiveUsers` lists the identities
with a positive reference count in the room. -/
def getActiveUsers (st : Storage) (roomId : Nat) : List String :=
  ((st.presence.filter (fun p => decide (p.1 = roomId))).map Prod.snd).dedup

/-- The wire-level event vocabulary (`ChatEvent`). -/
inductive Event where
  | pong
  | user_joined (userId : String) (roomId : Nat)
  | user_left (userId : String) (roomId : Nat)
  | new_message (m : ChatMessage)
  | persona_typing (personaId : Nat) (roomId : Nat)
  | active_users (roomId : Nat) (activeUsers : List String)
  | room_history (messages : List Message)
  | ai_error (personaId : Nat) (error : String)
  | error (message : String)
deriving DecidableEq

/-- An emission: either a `broadcastToRoom` to every connection attached
to a room, or a unicast (`ws.send` / `sendErrorToClient`) to the
handling connection. -/
inductive Emit where
  | toRoom (roomId : Nat) (event : Event)
  | toClient (event : Event)
deriving DecidableEq

/-- The room an emission is broadcast to, if it is a broadcast. -/
def Emit.targetRoom : Emit → Option Nat
  | Emit.toRoom r _ => some r
  | Emit.toClient _ => none

/-- `handleJoinRoom` (websocket.ts lines 70-88): unconditionally attach
the connection to the requested room, add the user to the room's active
set, broadcast `user_joined`, unicast the room history, and broadcast
the updated `active_users` list.  There is no detach of a previously
attached room, and no check that the room exists or that the user is a
member of it. -/
def handleJoinRoom (c : Conn) (userId : String) (roomId : Nat) (st : Storage) :
    Conn × List Emit × Storage :=
  let _ := c
  let c2 : Conn := { userId := some userId, roomId := some roomId }
  let st2 := addActiveUser st roomId userId
  (c2,
   [Emit.toRoom roomId (Event.user_joined userId roomId),
    Emit.toClient (Event.room_history (getMessagesByRoom st2 roomId none)),
    Emit.toRoom roomId (Event.active_users roomId (getActiveUsers st2 roomId))],
   st2)

/-- `handleLeaveRoom` (websocket.ts lines 91-111): if the connection has
a truthy attached identity and room, remove the user from the active
set, broadcast `user_left` and the updated `active_users`, and reset the
connection's fields; otherwise do nothing. -/
def handleLeaveRoom (c : Conn) (st : Storage) : Conn × List Emit × Storage :=
  match c.userId, c.roomId with
  | some u, some r =>
    if u = "" ∨ r = 0 then (c, [], st)
    else
      let st2 := removeActiveUser st r u
      ({ userId := none, roomId := none },
       [Emit.toRoom r (Event.user_left u r),
        Emit.toRoom r (Event.active_users r (getActiveUsers st2 r))],
       st2)
  | _, _ => (c, [], st)

/-- The transport-close cleanup (websocket.ts lines 62-66): the close
handler invokes `handleLeaveRoom` unconditionally. -/
def handleClose (c : Conn) (st : Storage) : Conn × List Emit × Storage :=
  handleLeaveRoom c st

/-- The scripted fallback body used when generation fails
(websocket.ts line 212). -/
def fallbackText : String :=
  "I\x27m having trouble accessing my knowledge. Please try again later."

/-- The AI context assembly (websocket.ts lines 158-176): the just
created user message first, then the room's prior messages limited to 5,
with the just-created message excluded by id, limited to 3. -/
def aiContextFor (st1 : Storage) (roomId : Nat) (userMessage : Message)
    (user : Option User) : List ChatMessage :=
  let specialContext : List ChatMessage :=
    [{ msg := userMessage, user := user, persona := none, attachments := [] }]
  let previousMessages := getMessagesByRoom st1 roomId (some 5)
  let filteredPreviousMessages :=
    (previousMessages.filter (fun m => decide (m.id ≠ userMessage.id))).take 3
  specialContext ++
    filteredPreviousMessages.map
      (fun m => { msg := m, user := none, persona := none, attachments := [] })

/-- The fallback path of the generation `catch` (websocket.ts lines
203-232): persist and broadcast the scripted fallback message from the
same persona; if that persistence itself fails (`fallbackOk = false`),
broadcast a single `ai_error` instead and persist nothing. -/
def fallbackStep (personas : Nat → Option Persona) (fallbackOk : Bool)
    (roomId personaId : Nat) (st1 : Storage) : List Emit × Storage :=
  if fallbackOk then
    let persona2 := personas personaId
    let (errorMessage, st2) :=
      createMessage st1
        { roomId := roomId, userId := none, personaId := some personaId,
          message := fallbackText }
    ([Emit.toRoom roomId (Event.new_message
        { msg := errorMessage, user := none, persona := persona2, attachments := [] })],
     st2)
  else
    ([Emit.toRoom roomId (Event.ai_error personaId "Failed to generate AI response")], st1)

/-- The AI-persona turn of `handleSendMessage` (websocket.ts lines
145-233): broadcast `persona_typing`, resolve the persona (unicast
`Persona not found` if absent), assemble the context, invoke the
generation capability, and on success persist and broadcast the reply
(`aiOk` is whether that persistence succeeds); any failure of the
generation call or of the reply persistence takes the fallback path. -/
def aiTurn (roomId personaId : Nat) (personas : Nat → Option Persona)
    (gen : Persona → List ChatMessage → Except Unit String)
    (aiOk fallbackOk : Bool) (userMessage : Message) (user : Option User)
    (st1 : Storage) : List Emit × Storage :=
  let evT := Emit.toRoom roomId (Event.persona_typing personaId roomId)
  match personas personaId with
  | none => ([evT, Emit.toClient (Event.error "Persona not found")], st1)
  | some persona =>
    match gen persona (aiContextFor st1 roomId userMessage user) with
    | Except.ok aiResponse =>
      if aiOk then
        let (aiMessage, st2) :=
          createMessage st1
            { roomId := roomId, userId := none, personaId := some personaId,
              message := aiResponse }
        ([evT, Emit.toRoom roomId (Event.new_message
            { msg := aiMessage, user := none, persona := some persona, attachments := [] })],
         st2)
      else
        let (evs, st2) := fallbackStep personas fallbackOk roomId personaId st1
        (evT :: evs, st2)
    | Except.error _ =>
      let (evs, st2) := fallbackStep personas fallbackOk roomId personaId st1
      (evT :: evs, st2)

/-- `handleSendMessage` (websocket.ts lines 114-239).  `users` and
`personas` are the identity and persona gateways; `gen` is the
generation capability; `userOk` is whether persisting the human message
succeeds (its failure is caught by the outer `catch`). -/
def handleSendMessage (c : Conn) (message : String) (personaId : Option Nat)
    (users : String → Option User) (personas : Nat → Option Persona)
    (gen : Persona → List ChatMessage → Except Unit String)
    (userOk aiOk fallbackOk : Bool) (st : Storage) : List Emit × Storage :=
  match c.userId, c.roomId with
  | some u, some r =>
    if u = "" ∨ r = 0 then
      ([Emit.toClient (Event.error "You must join a room before sending messages")], st)
    else if userOk = false then
      ([Emit.toClient (Event.error "Failed to process your message")], st)
    else
      let (userMessage, st1) :=
        createMessage st { roomId := r, userId := some u, personaId := none, message := message }
      let user := users u
      let ev1 := Emit.toRoom r (Event.new_message
        { msg := userMessage, user := user, persona := none, attachments := [] })
      match personaId with
      | some pid =>
        if pid = 0 then ([ev1], st1)
        else
          let (evs, st2) := aiTurn r pid personas gen aiOk fallbackOk userMessage user st1
          (ev1 :: evs, st2)
      | none => ([ev1], st1)
  | _, _ =>
    ([Emit.toClient (Event.error "You must join a room before sending messages")], st)

/-- The closed enum of attachment types (websocket.ts line 263). -/
def validAttachmentTypes : List String :=
  ["image", "audio", "video", "document", "voice_message"]

/-- `handleSendAttachment` (websocket.ts lines 242-304): reject when not
joined, validate the attachment type before any persistence, then create
the holding message, the attachment, and broadcast the combined chat
message.  `msgOk`/`attOk` are whether the two persistence calls succeed
(a failure is caught and reported to the sender). -/
def handleSendAttachment (c : Conn) (url fileName : String) (fileSize : Nat)
    (fileType attachmentType : String) (users : String → Option User)
    (msgOk attOk : Bool) (st : Storage) : List Emit × Storage :=
  match c.userId, c.roomId with
  | some u, some r =>
    if u = "" ∨ r = 0 then
      ([Emit.toClient (Event.error "You must join a room before sending attachments")], st)
    else if ¬ (attachmentType ∈ validAttachmentTypes) then
      ([Emit.toClient (Event.error "Invalid attachment type")], st)
    else if msgOk = false then
      ([Emit.toClient (Event.error "Failed to process attachment")], st)
    else
      let (message, st1) :=
        createMessage st
          { roomId := r, userId := some u, personaId := none,
            message := "Sent " ++ attachmentType }
      if attOk = false then
        ([Emit.toClient (Event.error "Failed to process attachment")], st1)
      else
        let (attachment, st2) :=
          createAttachment st1
            { messageId := message.id, url := url, fileName := fileName,
              fileSize := fileSize, fileType := fileType, attachmentType := attachmentType }
        let user := users u
        ([Emit.toRoom r (Event.new_message
            { msg := message, user := user, persona := none, attachments := [attachment] })],
         st2)
  | _, _ =>
    ([Emit.toClient (Event.error "You must join a room before sending attachments")], st)

/-- JavaScript `a || d` on an optional string: `undefined` and `""` are
falsy and select the default. -/
def jsStringOr (v : Option String) (d : String) : String :=
  match v with
  | none => d
  | some s => if s = "" then d else s

/-- `handleSendVoiceMessage` (websocket.ts lines 307-361): reject when
not joined, create the holding message with body `"Voice message"`, then
the attachment with type `voice_message` and file type defaulted to
`audio/webm`, and broadcast the combined chat message. -/
def handleSendVoiceMessage (c : Conn) (url fileName : String) (fileSize : Nat)
    (fileType : Option String) (users : String → Option User)
    (msgOk attOk : Bool) (st : Storage) : List Emit × Storage :=
  match c.userId, c.roomId with
  | some u, some r =>
    if u = "" ∨ r = 0 then
      ([Emit.toClient (Event.error "You must join a room before sending voice messages")], st)
    else if msgOk = false then
      ([Emit.toClient (Event.error "Failed to process voice message")], st)
    else
      let (insertedMessage, st1) :=
        createMessage st
          { roomId := r, userId := some u, personaId := none, message := "Voice message" }
      if attOk = false then
        ([Emit.toClient (Event.error "Failed to process voice message")], st1)
      else
        let (attachment, st2) :=
          createAttachment st1
            { messageId := insertedMessage.id, url := url, fileName := fileName,
              fileSize := fileSize, fileType := jsStringOr fileType "audio/webm",
              attachmentType := "voice_message" }
        let user := users u
        ([Emit.toRoom r (Event.new_message
            { msg := insertedMessage, user := user, persona := none,
              attachments := [attachment] })],
         st2)
  | _, _ =>
    ([Emit.toClient (Event.error "You must join a room before sending voice messages")], st)

/-- Well-formed storage: every persisted message has an id below the
next fresh id (maintained by `createMessage`). -/
def Storage.wf (st : Storage) : Prop :=
  ∀ m ∈ st.messages, m.id < st.nextId

/-!
A small transition system for the presence claims: `n` connections that
only ever join with one shared `(userId, roomId)` pair, driven by
`join_room` / `leave_room` envelopes, each step being exactly the
corresponding `websocket.ts` handler applied to the addressed
connection.
-/

/-- The joint state of the connections and the storage collaborator. -/
structure Sys where
  conns : List Conn
  st : Storage
deriving DecidableEq

/-- A `join_room` or `leave_room` envelope arriving on connection `i`. -/
inductive PresenceOp where
  | join (i : Nat)
  | leave (i : Nat)
deriving DecidableEq

/-- One envelope processed by the corresponding handler.  An index with
no connection is a no-op. -/
def stepOp (u : String) (r : Nat) (s : Sys) : PresenceOp → Sys
  | PresenceOp.join i =>
    match s.conns[i]? with
    | none => s
    | some c =>
      let res := handleJoinRoom c u r s.st
      { conns := s.conns.set i res.1, st := res.2.2 }
  | PresenceOp.leave i =>
    match s.conns[i]? with
    | none => s
    | some c =>
      let res := handleLeaveRoom c s.st
      { conns := s.conns.set i res.1, st := res.2.2 }

/-- A whole sequence of envelopes. -/
def runOps (u : String) (r : Nat) (s : Sys) : List PresenceOp → Sys
  | [] => s
  | op :: ops => runOps u r (stepOp u r s op) ops

/-- `n` fresh connections and a fresh process. -/
def initSys (n : Nat) : Sys :=
  { conns := List.replicate n { userId := none, roomId := none }, st := emptyStorage }

/-- The number of connections currently attached to `(u, r)`. -/
def attachedCount (u : String) (r : Nat) (conns : List Conn) : Nat :=
  conns.countP (fun c => decide (c = { userId := some u, roomId := some r }))

/-- The reference count of `(r, u)` in the presence tracker. -/
def presenceCount (st : Storage) (r : Nat) (u : String) : Nat :=
  st.presence.countP (fun p => decide (p = (r, u)))

/-- A well-formed step: a connection issues `join_room` only while it is
not already attached (re-joining while attached double-counts, see the
counterexample); `leave_room` is always allowed. -/
def okOp (s : Sys) : PresenceOp → Bool
  | PresenceOp.join i =>
    decide (s.conns[i]? = none ∨ s.conns[i]? = some { userId := none, roomId := none })
  | PresenceOp.leave _ => true

/-- A well-formed run: every step is well-formed in the state where it
is taken. -/
def okRun (u : String) (r : Nat) (s : Sys) : List PresenceOp → Bool
  | [] => true
  | op :: ops => okOp s op && okRun u r (stepOp u r s op) ops

/-- Every connection is either fresh or attached to the shared pair. -/
def ConnForms (u : String) (r : Nat) (conns : List Conn) : Prop :=
  ∀ c ∈ conns,
    c = { userId := none, roomId := none } ∨ c = { userId := some u, roomId := some r }

/-- The presence invariant: the reference count of `(r, u)` equals the
number of connections attached to `(u, r)`, and connections only take
the two reachable forms. -/
def SysInv (u : String) (r : Nat) (s : Sys) : Prop :=
  presenceCount s.st r u = attachedCount u r s.conns ∧ ConnForms u r s.conns

/-!  Helper lemmas about the presence tracker.  -/

/-- Membership in the active-users list is membership of the pair in the
presence multiset. -/
theorem mem_getActiveUsers (st : Storage) (r : Nat) (u : String) :
    u ∈ getActiveUsers st r ↔ (r, u) ∈ st.presence := by
  unfold getActiveUsers
  simp only [List.mem_dedup, List.mem_map, List.mem_filter, decide_eq_true_eq]
  constructor
  · rintro ⟨⟨pr, pu⟩, ⟨hp, hr⟩, hu⟩
    simp only at hr hu
    subst hr; subst hu; exact hp
  · intro h
    exact ⟨(r, u), ⟨h, rfl⟩, rfl⟩

/-- Membership is a positive count. -/
theorem mem_iff_countP_pos {α : Type} [DecidableEq α] (l : List α) (k : α) :
    k ∈ l ↔ 0 < l.countP (fun p => decide (p = k)) := by
  rw [List.countP_pos_iff]
  constructor
  · intro h; exact ⟨k, h, by simp⟩
  · rintro ⟨a, ha, hk⟩
    simp only [decide_eq_true_eq] at hk
    subst hk; exact ha

/-- `eraseOnce` decrements the count of the erased key. -/
theorem countP_eraseOnce (l : List (Nat × String)) (k : Nat × String) :
    (eraseOnce l k).countP (fun p => decide (p = k))
      = l.countP (fun p => decide (p = k)) - 1 := by
  induction l with
  | nil => simp [eraseOnce]
  | cons p t ih =>
    by_cases h : p = k
    · subst h
      simp [eraseOnce, List.countP_cons]
    · simp [eraseOnce, h, List.countP_cons, ih]

/-- The erased key survives `eraseOnce` exactly when it occurred at least
twice. -/
theorem mem_eraseOnce_self (l : List (Nat × String)) (k : Nat × String) :
    k ∈ eraseOnce l k ↔ 2 ≤ l.countP (fun p => decide (p = k)) := by
  induction l with
  | nil => simp [eraseOnce]
  | cons p t ih =>
    by_cases h : p = k
    · subst h
      rw [eraseOnce, if_pos rfl, List.countP_cons, mem_iff_countP_pos]
      simp
    · rw [eraseOnce, if_neg h, List.countP_cons]
      simp only [List.mem_cons, if_neg]
      have hk : ¬ k = p := fun hkp => h hkp.symm
      simp [hk, h, ih]

/-- Setting one list element adjusts `countP` by the change at that
position. -/
theorem countP_set_addition {α : Type} (l : List α) (i : Nat) (c c2 : α)
    (f : α → Bool) (h : l[i]? = some c) :
    (l.set i c2).countP f + (if f c then 1 else 0)
      = l.countP f + (if f c2 then 1 else 0) := by
  induction l generalizing i with
  | nil => simp at h
  | cons a t ih =>
    cases i with
    | zero =>
      simp only [List.getElem?_cons_zero, Option.some.injEq] at h
      subst h
      simp only [List.set_cons_zero, List.countP_cons]
      omega
    | succ n =>
      simp only [List.getElem?_cons_succ] at h
      have := ih n h
      simp only [List.set_cons_succ, List.countP_cons]
      omega

/-- `addActiveUser` increments the reference count of its key. -/
theorem presenceCount_add (st : Storage) (r : Nat) (u : String) :
    presenceCount (addActiveUser st r u) r u = presenceCount st r u + 1 := by
  simp [presenceCount, addActiveUser, List.countP_cons]

/-- `removeActiveUser` decrements the reference count of its key. -/
theorem presenceCount_remove (st : Storage) (r : Nat) (u : String) :
    presenceCount (removeActiveUser st r u) r u = presenceCount st r u - 1 := by
  simp [presenceCount, removeActiveUser, countP_eraseOnce]

/-- Setting one connection adjusts the attached count by the change at
that position. -/
theorem attachedCount_set (conns : List Conn) (i : Nat) (c c2 : Conn)
    (u : String) (r : Nat) (hc : conns[i]? = some c) :
    attachedCount u r (conns.set i c2)
        + (if c = { userId := some u, roomId := some r } then 1 else 0)
      = attachedCount u r conns
        + (if c2 = { userId := some u, roomId := some r } then 1 else 0) := by
  have h := countP_set_addition conns i c c2
    (fun c0 => decide (c0 = { userId := some u, roomId := some r })) hc
  simpa [attachedCount] using h

/-- One well-formed step preserves the presence invariant. -/
theorem sysInv_step (u : String) (r : Nat) (s : Sys) (op : PresenceOp)
    (hinv : SysInv u r s) (hok : okOp s op = true) :
    SysInv u r (stepOp u r s op) := by
  obtain ⟨hcount, hforms⟩ := hinv
  cases op with
  | join i =>
    cases hc : s.conns[i]? with
    | none =>
      simp only [stepOp, hc]
      exact ⟨hcount, hforms⟩
    | some c =>
      have hcform : c = { userId := none, roomId := none } := by
        rw [okOp, decide_eq_true_eq] at hok
        rcases hok with h | h
        · rw [hc] at h; cases h
        · rw [hc] at h; exact Option.some.inj h
      have hset := attachedCount_set s.conns i c
        { userId := some u, roomId := some r } u r hc
      rw [hcform] at hset
      simp only [Conn.mk.injEq, reduceCtorEq, false_and, and_self, if_false, if_true,
        Nat.add_zero, if_pos, and_false] at hset
      simp only [stepOp, hc, handleJoinRoom]
      constructor
      · show presenceCount (addActiveUser s.st r u) r u
          = attachedCount u r (s.conns.set i { userId := some u, roomId := some r })
        rw [presenceCount_add]
        omega
      · intro x hx
        rcases List.mem_or_eq_of_mem_set hx with h | h
        · exact hforms x h
        · right; exact h
  | leave i =>
    cases hc : s.conns[i]? with
    | none =>
      simp only [stepOp, hc]
      exact ⟨hcount, hforms⟩
    | some c =>
      have hcmem : c ∈ s.conns := List.getElem?_mem hc
      rcases hforms c hcmem with hcform | hcform
      · subst hcform
        have hset := attachedCount_set s.conns i
          { userId := none, roomId := none } { userId := none, roomId := none } u r hc
        simp only [stepOp, hc, handleLeaveRoom]
        constructor
        · show presenceCount s.st r u
            = attachedCount u r (s.conns.set i { userId := none, roomId := none })
          omega
        · intro x hx
          rcases List.mem_or_eq_of_mem_set hx with h | h
          · exact hforms x h
          · left; exact h
      · subst hcform
        by_cases hfalsy : u = "" ∨ r = 0
        · have hset := attachedCount_set s.conns i
            { userId := some u, roomId := some r } { userId := some u, roomId := some r }
            u r hc
          simp only [stepOp, hc, handleLeaveRoom, if_pos hfalsy]
          constructor
          · show presenceCount s.st r u
              = attachedCount u r (s.conns.set i { userId := some u, roomId := some r })
            omega
          · intro x hx
            rcases List.mem_or_eq_of_mem_set hx with h | h
            · exact hforms x h
            · right; exact h
        · have hset := attachedCount_set s.conns i
            { userId := some u, roomId := some r } { userId := none, roomId := none } u r hc
          simp only [Conn.mk.injEq, reduceCtorEq, false_and, and_self, if_false, if_true,
            Nat.add_zero, if_pos, and_false] at hset
          have hpos : 0 < attachedCount u r s.conns := by
            rw [attachedCount, List.countP_pos_iff]
            exact ⟨_, hcmem, by simp⟩
          simp only [stepOp, hc, handleLeaveRoom, if_neg hfalsy]
          constructor
          · show presenceCount (removeActiveUser s.st r u) r u
              = attachedCount u r (s.conns.set i { userId := none, roomId := none })
            rw [presenceCount_remove]
            omega
          · intro x hx
            rcases List.mem_or_eq_of_mem_set hx with h | h
            · exact hforms x h
            · left; exact h

/-- The presence invariant holds along every well-formed run. -/
theorem sysInv_run (u : String) (r : Nat) (s : Sys) (ops : List PresenceOp)
    (hok : okRun u r s ops = true) (hinv : SysInv u r s) :
    SysInv u r (runOps u r s ops) := by
  induction ops generalizing s with
  | nil => exact hinv
  | cons op ops ih =>
    rw [okRun, Bool.and_eq_true] at hok
    exact ih _ hok.2 (sysInv_step u r s op hinv hok.1)

/-- The presence invariant holds initially. -/
theorem sysInv_init (n : Nat) (u : String) (r : Nat) : SysInv u r (initSys n) := by
  constructor
  · show presenceCount emptyStorage r u = attachedCount u r (List.replicate n _)
    rw [presenceCount, attachedCount]
    simp only [emptyStorage, List.countP_nil]
    rw [eq_comm, List.countP_eq_zero]
    intro c hcm
    rw [List.eq_of_mem_replicate hcm]
    simp
  · intro c hc
    left
    exact List.eq_of_mem_replicate hc

/-- Claim C10: for every `join_room` envelope with any `userId` and
`roomId`, the connection is attached, the user is added to the room's
active set, and `user_joined`, `room_history` and `active_users` events
are sent — unconditionally in all four arguments, hence without any
check that the room exists or that the user is a member of it. -/
theorem joinRoom_unconditional (c : Conn) (u : String) (r : Nat) (st : Storage) :
    handleJoinRoom c u r st
      = ({ userId := some u, roomId := some r },
         [Emit.toRoom r (Event.user_joined u r),
          Emit.toClient (Event.room_history (getMessagesByRoom (addActiveUser st r u) r none)),
          Emit.toRoom r (Event.active_users r (getActiveUsers (addActiveUser st r u) r))],
         addActiveUser st r u)
    ∧ u ∈ getActiveUsers (addActiveUser st r u) r := by
  constructor
  · rfl
  · rw [mem_getActiveUsers]
    simp [addActiveUser]

/-- Claim C6: a `send_message` on a connection with no attached
room/identity yields exactly one error event, unicast to the sender,
and leaves the storage untouched (zero messages persisted, no broadcast
to any room). -/
theorem sendMessage_not_joined (c : Conn) (message : String) (personaId : Option Nat)
    (users : String → Option User) (personas : Nat → Option Persona)
    (gen : Persona → List ChatMessage → Except Unit String)
    (userOk aiOk fallbackOk : Bool) (st : Storage)
    (h : c.userId = none ∨ c.roomId = none) :
    handleSendMessage c message personaId users personas gen userOk aiOk fallbackOk st
      = ([Emit.toClient (Event.error "You must join a room before sending messages")], st) := by
  obtain ⟨cu, cr⟩ := c
  rcases h with h | h
  · simp only at h
    subst h
    cases cr <;> rfl
  · simp only at h
    subst h
    cases cu <;> rfl

/-- Claim C6 witness: a fresh connection sending a message gets exactly
the one unicast error and nothing is persisted. -/
theorem sendMessage_not_joined_witness :
    (({ userId := none, roomId := none } : Conn).userId = none
      ∨ ({ userId := none, roomId := none } : Conn).roomId = none)
    ∧ handleSendMessage { userId := none, roomId := none } "hi" none
        (fun _ => none) (fun _ => none) (fun _ _ => Except.error ()) true true true emptyStorage
      = ([Emit.toClient (Event.error "You must join a room before sending messages")],
         emptyStorage) :=
  ⟨Or.inl rfl,
   sendMessage_not_joined { userId := none, roomId := none } "hi" none
     (fun _ => none) (fun _ => none) (fun _ _ => Except.error ()) true true true emptyStorage
     (Or.inl rfl)⟩

/-- Claim C7: a `send_attachment` on a joined connection whose
`attachmentType` is outside the closed enum is rejected with a
validation error to the sender, with the storage untouched: neither a
`Message` nor an `Attachment` is created. -/
theorem sendAttachment_invalid_type (u url fileName fileType attachmentType : String)
    (r fileSize : Nat) (users : String → Option User) (msgOk attOk : Bool) (st : Storage)
    (hu : u ≠ "") (hr : r ≠ 0)
    (hbad : attachmentType ∉ validAttachmentTypes) :
    handleSendAttachment { userId := some u, roomId := some r } url fileName fileSize
        fileType attachmentType users msgOk attOk st
      = ([Emit.toClient (Event.error "Invalid attachment type")], st) := by
  rw [handleSendAttachment]
  simp [hu, hr, hbad]

/-- Claim C7 witness: attachment type `exe` is rejected on a joined
connection with nothing persisted. -/
theorem sendAttachment_invalid_type_witness :
    "a" ≠ "" ∧ 7 ≠ 0 ∧ "exe" ∉ validAttachmentTypes
    ∧ handleSendAttachment { userId := some "a", roomId := some 7 } "u" "f" 9
        "application/x" "exe" (fun _ => none) true true emptyStorage
      = ([Emit.toClient (Event.error "Invalid attachment type")], emptyStorage) :=
  ⟨by decide, by decide, by decide,
   sendAttachment_invalid_type "a" "u" "f" "application/x" "exe" 7 9 (fun _ => none)
     true true emptyStorage (by decide) (by decide) (by decide)⟩

/-- Claim C9: a `send_voice_message` on a joined connection creates a
holding message whose body is always `"Voice message"` and an attachment
whose type is always `voice_message`; the attachment's file type is the
supplied one, with absent or empty defaulting to `audio/webm`. -/
theorem voiceMessage_defaults (u url fileName : String) (r fileSize : Nat)
    (fileType : Option String) (users : String → Option User) (st : Storage)
    (hu : u ≠ "") (hr : r ≠ 0) :
    ∃ m a,
      (handleSendVoiceMessage { userId := some u, roomId := some r } url fileName fileSize
          fileType users true true st).1
        = [Emit.toRoom r (Event.new_message
            { msg := m, user := users u, persona := none, attachments := [a] })]
      ∧ m.message = "Voice message"
      ∧ a.attachmentType = "voice_message"
      ∧ a.fileType = jsStringOr fileType "audio/webm"
      ∧ ((fileType = none ∨ fileType = some "") → a.fileType = "audio/webm") := by
  rw [handleSendVoiceMessage]
  simp only [if_neg (by simp [hu, hr] : ¬ (u = "" ∨ r = 0))]
  refine ⟨_, _, rfl, rfl, rfl, rfl, ?_⟩
  rintro (h | h) <;> simp [h, jsStringOr, createAttachment]

/-- Claim C9 witness: an empty file type defaults to `audio/webm` on a
concrete voice message. -/
theorem voiceMessage_defaults_witness :
    "a" ≠ "" ∧ (7 : Nat) ≠ 0
    ∧ ∃ m a,
      (handleSendVoiceMessage { userId := some "a", roomId := some 7 } "u" "f" 9
          (some "") (fun _ => none) true true emptyStorage).1
        = [Emit.toRoom 7 (Event.new_message
            { msg := m, user := none, persona := none, attachments := [a] })]
      ∧ m.message = "Voice message"
      ∧ a.attachmentType = "voice_message"
      ∧ a.fileType = jsStringOr (some "") "audio/webm"
      ∧ ((some "" = none ∨ some "" = some "") → a.fileType = "audio/webm") :=
  ⟨by decide, by decide,
   voiceMessage_defaults "a" "u" "f" 7 9 (some "") (fun _ => none) emptyStorage
     (by decide) (by decide)⟩

/-- Claim C1 counterexample: a connection attached to room 1 as `"u"`
(with `("u", 1)` in room 1's active set) processes `join_room` for room
2; contrary to the claim, `"u"` is NOT removed from room 1's active set
(no detach of the old room happens, and no `user_left` for room 1 is
broadcast). -/
theorem joinRoom_no_detach_counterexample :
    "u" ∈ getActiveUsers
        ((handleJoinRoom { userId := some "u", roomId := some 1 } "u" 2
          { emptyStorage with presence := [(1, "u")] }).2.2) 1
    ∧ (∀ e ∈ (handleJoinRoom { userId := some "u", roomId := some 1 } "u" 2
          { emptyStorage with presence := [(1, "u")] }).2.1,
        e ≠ Emit.toRoom 1 (Event.user_left "u" 1)) := by
  decide

/-- Claim C1 amended: processing `join_room` for a different room `r2`
overwrites the connection's attachment (so the connection itself is
afterwards counted only in `r2`), but performs no detach for the old
room `r1`: `r1`'s active-user set is unchanged and no event at all is
broadcast to `r1`. -/
theorem joinRoom_switch_no_old_room_detach (c : Conn) (u : String) (r1 r2 : Nat)
    (st : Storage) (hc : c.roomId = some r1) (hne : r1 ≠ r2) :
    (handleJoinRoom c u r2 st).1 = { userId := some u, roomId := some r2 }
    ∧ getActiveUsers (handleJoinRoom c u r2 st).2.2 r1 = getActiveUsers st r1
    ∧ ∀ e ∈ (handleJoinRoom c u r2 st).2.1, e.targetRoom ≠ some r1 := by
  refine ⟨rfl, ?_, ?_⟩
  · show getActiveUsers (addActiveUser st r2 u) r1 = getActiveUsers st r1
    rw [getActiveUsers, getActiveUsers, addActiveUser]
    simp [List.filter_cons, Ne.symm hne]
  · intro e he
    have hc2 := hc
    rw [handleJoinRoom] at he
    simp only [List.mem_cons, List.mem_singleton] at he
    rcases he with rfl | rfl | rfl | he
    · simp [Emit.targetRoom, Ne.symm hne]
    · simp [Emit.targetRoom]
    · simp [Emit.targetRoom, Ne.symm hne]
    · cases he

/-- Claim C1 witness: a concrete connection attached to room 1 joining
room 2. -/
theorem joinRoom_switch_no_old_room_detach_witness :
    (({ userId := some "u", roomId := some 1 } : Conn).roomId = some 1 ∧ 1 ≠ 2)
    ∧ ((handleJoinRoom { userId := some "u", roomId := some 1 } "u" 2
          { emptyStorage with presence := [(1, "u")] }).1
        = { userId := some "u", roomId := some 2 }
      ∧ getActiveUsers (handleJoinRoom { userId := some "u", roomId := some 1 } "u" 2
          { emptyStorage with presence := [(1, "u")] }).2.2 1
        = getActiveUsers { emptyStorage with presence := [(1, "u")] } 1
      ∧ ∀ e ∈ (handleJoinRoom { userId := some "u", roomId := some 1 } "u" 2
          { emptyStorage with presence := [(1, "u")] }).2.1,
          e.targetRoom ≠ some 1) :=
  ⟨⟨rfl, by decide⟩,
   joinRoom_switch_no_old_room_detach { userId := some "u", roomId := some 1 } "u" 1 2
     { emptyStorage with presence := [(1, "u")] } rfl (by decide)⟩

/-- Claim C8 counterexample: user `"A"` joins room 7 on two connections;
the transport of the first closes.  Contrary to the claim, `"A"` is NOT
removed from room 7's active set (the other connection keeps the
reference count positive). -/
theorem close_second_connection_counterexample :
    "A" ∈ getActiveUsers
      ((handleClose
          (handleJoinRoom { userId := none, roomId := none } "A" 7 emptyStorage).1
          (handleJoinRoom { userId := none, roomId := none } "A" 7
            (handleJoinRoom { userId := none, roomId := none } "A" 7 emptyStorage).2.2).2.2).2.2)
      7 := by
  decide

/-- Claim C8 amended: on transport close of a connection attached (with
truthy identity and room) the detach cleanup runs unconditionally:
`removeActiveUser` is applied, the connection is reset, and `user_left`
plus the updated `active_users` are broadcast to the room; the user
disappears from the active set exactly when this was the last of their
connections there (reference count 1). -/
theorem close_detach_cleanup (u : String) (r : Nat) (st : Storage)
    (hu : u ≠ "") (hr : r ≠ 0) :
    handleClose { userId := some u, roomId := some r } st
      = ({ userId := none, roomId := none },
         [Emit.toRoom r (Event.user_left u r),
          Emit.toRoom r (Event.active_users r (getActiveUsers (removeActiveUser st r u) r))],
         removeActiveUser st r u)
    ∧ (u ∈ getActiveUsers (removeActiveUser st r u) r ↔ 2 ≤ presenceCount st r u) := by
  constructor
  · rw [handleClose, handleLeaveRoom]
    simp [hu, hr]
  · rw [mem_getActiveUsers, removeActiveUser, presenceCount]
    exact mem_eraseOnce_self st.presence (r, u)

/-- Claim C8 witness: a singly-connected user is dropped from the active
set on close (the count was 1, so the iff removes the user). -/
theorem close_detach_cleanup_witness :
    ("A" ≠ "" ∧ (7 : Nat) ≠ 0)
    ∧ (handleClose { userId := some "A", roomId := some 7 }
          { emptyStorage with presence := [(7, "A")] }
        = ({ userId := none, roomId := none },
           [Emit.toRoom 7 (Event.user_left "A" 7),
            Emit.toRoom 7 (Event.active_users 7
              (getActiveUsers (removeActiveUser { emptyStorage with presence := [(7, "A")] } 7 "A") 7))],
           removeActiveUser { emptyStorage with presence := [(7, "A")] } 7 "A")
      ∧ ("A" ∈ getActiveUsers
            (removeActiveUser { emptyStorage with presence := [(7, "A")] } 7 "A") 7
          ↔ 2 ≤ presenceCount { emptyStorage with presence := [(7, "A")] } 7 "A")) :=
  ⟨⟨by decide, by decide⟩,
   close_detach_cleanup "A" 7 { emptyStorage with presence := [(7, "A")] }
     (by decide) (by decide)⟩

/-- Claim C4 counterexample: a single connection joins `("u", 1)` twice
and then leaves once (all operations sharing the same pair, as the claim
quantifies).  Afterwards no connection is attached, yet `"u"` is still in
room 1's active set — the claimed iff fails, because `join_room` does
not detach first and so double-counts the reference. -/
theorem presence_iff_counterexample :
    "u" ∈ getActiveUsers
        (runOps "u" 1 (initSys 1)
          [PresenceOp.join 0, PresenceOp.join 0, PresenceOp.leave 0]).st 1
    ∧ ∀ c ∈ (runOps "u" 1 (initSys 1)
          [PresenceOp.join 0, PresenceOp.join 0, PresenceOp.leave 0]).conns,
        ¬ (c.userId = some "u" ∧ c.roomId = some 1) := by
  decide

/-- Claim C4 amended: for all sequences of `join_room`/`leave_room` from
`n` connections sharing the same `(userId, roomId)` pair in which a
connection issues `join_room` only while currently detached, the room's
active-user set contains the `userId` iff at least one of the
connections is currently attached (so detaching one of several
still-attached connections of the same user does not remove the user). -/
theorem presence_iff_refcount (n : Nat) (u : String) (r : Nat) (ops : List PresenceOp)
    (hok : okRun u r (initSys n) ops = true) :
    u ∈ getActiveUsers (runOps u r (initSys n) ops).st r
      ↔ ∃ c ∈ (runOps u r (initSys n) ops).conns,
          c.userId = some u ∧ c.roomId = some r := by
  have hinv := sysInv_run u r (initSys n) ops hok (sysInv_init n u r)
  rw [mem_getActiveUsers, mem_iff_countP_pos]
  have hcnt : ((runOps u r (initSys n) ops).st.presence.countP
      (fun p => decide (p = (r, u)))) = attachedCount u r (runOps u r (initSys n) ops).conns :=
    hinv.1
  rw [hcnt, attachedCount, List.countP_pos_iff]
  constructor
  · rintro ⟨c, hcm, hcp⟩
    simp only [decide_eq_true_eq] at hcp
    subst hcp
    exact ⟨_, hcm, rfl, rfl⟩
  · rintro ⟨c, hcm, hcu, hcr⟩
    refine ⟨c, hcm, ?_⟩
    obtain ⟨cu, cr⟩ := c
    simp only at hcu hcr
    subst hcu; subst hcr
    simp

/-- Claim C4 witness: two connections of the same user join room 1 and
the first then leaves; the run is well-formed and the iff holds (the
user is still active via the second connection). -/
theorem presence_iff_refcount_witness :
    okRun "u" 1 (initSys 2) [PresenceOp.join 0, PresenceOp.join 1, PresenceOp.leave 0] = true
    ∧ ("u" ∈ getActiveUsers
          (runOps "u" 1 (initSys 2)
            [PresenceOp.join 0, PresenceOp.join 1, PresenceOp.leave 0]).st 1
        ↔ ∃ c ∈ (runOps "u" 1 (initSys 2)
            [PresenceOp.join 0, PresenceOp.join 1, PresenceOp.leave 0]).conns,
            c.userId = some "u" ∧ c.roomId = some 1) :=
  ⟨by decide,
   presence_iff_refcount 2 "u" 1 [PresenceOp.join 0, PresenceOp.join 1, PresenceOp.leave 0]
     (by decide)⟩

/-- Claim C5: when generation proceeds, the context passed to the
generation capability places the just-created user message first,
followed by exactly the room's prior messages most recent first limited
to 3, the just-created message having been excluded by its id (on
well-formed storage the id filter removes nothing but the new message
itself). -/
theorem sendMessage_ai_context (st : Storage) (r : Nat) (u message : String)
    (user : Option User) (hwf : st.wf) :
    aiContextFor
        (createMessage st { roomId := r, userId := some u, personaId := none, message := message }).2
        r
        (createMessage st { roomId := r, userId := some u, personaId := none, message := message }).1
        user
      = { msg := (createMessage st
            { roomId := r, userId := some u, personaId := none, message := message }).1,
          user := user, persona := none, attachments := [] }
        :: ((st.messages.filter (fun m => decide (m.roomId = r))).take 3).map
             (fun m => { msg := m, user := none, persona := none, attachments := [] }) := by
  simp only [aiContextFor, getMessagesByRoom, createMessage]
  rw [List.filter_cons_of_pos (by simp)]
  rw [show (5 : Nat) = 4 + 1 from rfl, List.take_succ_cons]
  rw [List.filter_cons_of_neg (by simp)]
  rw [List.filter_eq_self.mpr ?ids]
  case ids =>
    intro m hm
    have h1 : m ∈ st.messages := List.mem_of_mem_filter (List.mem_of_mem_take hm)
    have h2 := hwf m h1
    simp only [decide_eq_true_eq]
    omega
  rw [List.take_take]
  rfl

/-- Claim C5 witness: a concrete room with two prior messages; the
context is the new message followed by both prior ones, most recent
first. -/
theorem sendMessage_ai_context_witness :
    ({ nextId := 3,
       messages :=
        [{ id := 2, roomId := 7, userId := some "b", personaId := none, message := "m2" },
         { id := 1, roomId := 7, userId := some "a", personaId := none, message := "m1" }],
       nextAttachmentId := 1, attachments := [], presence := [] } : Storage).wf
    ∧ aiContextFor
        (createMessage
          { nextId := 3,
            messages :=
             [{ id := 2, roomId := 7, userId := some "b", personaId := none, message := "m2" },
              { id := 1, roomId := 7, userId := some "a", personaId := none, message := "m1" }],
            nextAttachmentId := 1, attachments := [], presence := [] }
          { roomId := 7, userId := some "a", personaId := none, message := "hello" }).2
        7
        (createMessage
          { nextId := 3,
            messages :=
             [{ id := 2, roomId := 7, userId := some "b", personaId := none, message := "m2" },
              { id := 1, roomId := 7, userId := some "a", personaId := none, message := "m1" }],
            nextAttachmentId := 1, attachments := [], presence := [] }
          { roomId := 7, userId := some "a", personaId := none, message := "hello" }).1
        (some { id := "a" })
      = { msg := (createMessage
            { nextId := 3,
              messages :=
               [{ id := 2, roomId := 7, userId := some "b", personaId := none, message := "m2" },
                { id := 1, roomId := 7, userId := some "a", personaId := none, message := "m1" }],
              nextAttachmentId := 1, attachments := [], presence := [] }
            { roomId := 7, userId := some "a", personaId := none, message := "hello" }).1,
          user := some { id := "a" }, persona := none, attachments := [] }
        :: ((({ nextId := 3,
                messages :=
                 [{ id := 2, roomId := 7, userId := some "b", personaId := none, message := "m2" },
                  { id := 1, roomId := 7, userId := some "a", personaId := none, message := "m1" }],
                nextAttachmentId := 1, attachments := [], presence := [] } : Storage).messages.filter
                  (fun m => decide (m.roomId = 7))).take 3).map
             (fun m => { msg := m, user := none, persona := none, attachments := [] }) :=
  ⟨by unfold Storage.wf; decide,
   sendMessage_ai_context
     { nextId := 3,
       messages :=
        [{ id := 2, roomId := 7, userId := some "b", personaId := none, message := "m2" },
         { id := 1, roomId := 7, userId := some "a", personaId := none, message := "m1" }],
       nextAttachmentId := 1, attachments := [], presence := [] }
     7 "a" "hello" (some { id := "a" }) (by unfold Storage.wf; decide)⟩

/-- Claim C2: when the generation call fails for a `send_message` with a
persona, the orchestrator persists and broadcasts a fallback message
authored by the same persona with exactly the scripted body, and no raw
error reaches the room; if persisting that fallback itself fails,
exactly one `ai_error {personaId, error}` is broadcast and no fallback
message is persisted (the storage still holds only the human message). -/
theorem sendMessage_generation_failure (u message : String) (r pid : Nat)
    (users : String → Option User) (personas : Nat → Option Persona)
    (gen : Persona → List ChatMessage → Except Unit String)
    (aiOk fallbackOk : Bool) (st : Storage) (persona : Persona)
    (hu : u ≠ "") (hr : r ≠ 0) (hpid : pid ≠ 0)
    (hp : personas pid = some persona)
    (hgen : gen persona
        (aiContextFor
          (createMessage st
            { roomId := r, userId := some u, personaId := none, message := message }).2
          r
          (createMessage st
            { roomId := r, userId := some u, personaId := none, message := message }).1
          (users u))
      = Except.error ()) :
    (fallbackOk = true →
      ∃ fb : Message,
        (handleSendMessage { userId := some u, roomId := some r } message (some pid)
            users personas gen true aiOk fallbackOk st).1
          = [Emit.toRoom r (Event.new_message
               { msg := (createMessage st
                   { roomId := r, userId := some u, personaId := none, message := message }).1,
                 user := users u, persona := none, attachments := [] }),
             Emit.toRoom r (Event.persona_typing pid r),
             Emit.toRoom r (Event.new_message
               { msg := fb, user := none, persona := some persona, attachments := [] })]
        ∧ fb.personaId = some pid
        ∧ fb.message = fallbackText
        ∧ fb ∈ (handleSendMessage { userId := some u, roomId := some r } message (some pid)
            users personas gen true aiOk fallbackOk st).2.messages)
    ∧ (fallbackOk = false →
        (handleSendMessage { userId := some u, roomId := some r } message (some pid)
            users personas gen true aiOk fallbackOk st).1
          = [Emit.toRoom r (Event.new_message
               { msg := (createMessage st
                   { roomId := r, userId := some u, personaId := none, message := message }).1,
                 user := users u, persona := none, attachments := [] }),
             Emit.toRoom r (Event.persona_typing pid r),
             Emit.toRoom r (Event.ai_error pid "Failed to generate AI response")]
        ∧ (handleSendMessage { userId := some u, roomId := some r } message (some pid)
            users personas gen true aiOk fallbackOk st).2.messages
          = (createMessage st
              { roomId := r, userId := some u, personaId := none, message := message }).1
            :: st.messages) := by
  simp only [createMessage] at hgen
  constructor
  · intro hfb
    subst hfb
    refine ⟨{ id := st.nextId + 1, roomId := r, userId := none, personaId := some pid,
              message := fallbackText }, ?_, rfl, rfl, ?_⟩
    · simp [handleSendMessage, aiTurn, fallbackStep, createMessage, hp, hgen, hu, hr, hpid]
    · simp [handleSendMessage, aiTurn, fallbackStep, createMessage, hp, hgen, hu, hr, hpid]
  · intro hfb
    subst hfb
    constructor
    · simp [handleSendMessage, aiTurn, fallbackStep, createMessage, hp, hgen, hu, hr, hpid]
    · simp [handleSendMessage, aiTurn, fallbackStep, createMessage, hp, hgen, hu, hr, hpid]

/-- Claim C2 witness: a concrete failing generation with persona 3 on an
empty room; the fallback branch produces the scripted persisted message. -/
theorem sendMessage_generation_failure_witness :
    ("a" ≠ "" ∧ (7 : Nat) ≠ 0 ∧ (3 : Nat) ≠ 0
      ∧ (fun _ : Nat =>
          some { id := 3, name := "P", description := "", samplePrompt := "" }) 3
        = some ({ id := 3, name := "P", description := "", samplePrompt := "" } : Persona)
      ∧ (fun (_ : Persona) (_ : List ChatMessage) => (Except.error () : Except Unit String))
          { id := 3, name := "P", description := "", samplePrompt := "" }
          (aiContextFor
            (createMessage emptyStorage
              { roomId := 7, userId := some "a", personaId := none, message := "hi" }).2
            7
            (createMessage emptyStorage
              { roomId := 7, userId := some "a", personaId := none, message := "hi" }).1
            ((fun _ : String => (none : Option User)) "a"))
        = Except.error ())
    ∧ ((true = true →
        ∃ fb : Message,
          (handleSendMessage { userId := some "a", roomId := some 7 } "hi" (some 3)
              (fun _ => none)
              (fun _ => some { id := 3, name := "P", description := "", samplePrompt := "" })
              (fun _ _ => Except.error ()) true true true emptyStorage).1
            = [Emit.toRoom 7 (Event.new_message
                 { msg := (createMessage emptyStorage
                     { roomId := 7, userId := some "a", personaId := none, message := "hi" }).1,
                   user := (fun _ : String => (none : Option User)) "a", persona := none,
                   attachments := [] }),
               Emit.toRoom 7 (Event.persona_typing 3 7),
               Emit.toRoom 7 (Event.new_message
                 { msg := fb, user := none,
                   persona := some { id := 3, name := "P", description := "", samplePrompt := "" },
                   attachments := [] })]
          ∧ fb.personaId = some 3
          ∧ fb.message = fallbackText
          ∧ fb ∈ (handleSendMessage { userId := some "a", roomId := some 7 } "hi" (some 3)
              (fun _ => none)
              (fun _ => some { id := 3, name := "P", description := "", samplePrompt := "" })
              (fun _ _ => Except.error ()) true true true emptyStorage).2.messages)
      ∧ (true = false →
          (handleSendMessage { userId := some "a", roomId := some 7 } "hi" (some 3)
              (fun _ => none)
              (fun _ => some { id := 3, name := "P", description := "", samplePrompt := "" })
              (fun _ _ => Except.error ()) true true true emptyStorage).1
            = [Emit.toRoom 7 (Event.new_message
                 { msg := (createMessage emptyStorage
                     { roomId := 7, userId := some "a", personaId := none, message := "hi" }).1,
                   user := (fun _ : String => (none : Option User)) "a", persona := none,
                   attachments := [] }),
               Emit.toRoom 7 (Event.persona_typing 3 7),
               Emit.toRoom 7 (Event.ai_error 3 "Failed to generate AI response")]
          ∧ (handleSendMessage { userId := some "a", roomId := some 7 } "hi" (some 3)
              (fun _ => none)
              (fun _ => some { id := 3, name := "P", description := "", samplePrompt := "" })
              (fun _ _ => Except.error ()) true true true emptyStorage).2.messages
            = (createMessage emptyStorage
                { roomId := 7, userId := some "a", personaId := none, message := "hi" }).1
              :: emptyStorage.messages)) :=
  ⟨⟨by decide, by decide, by decide, rfl, rfl⟩,
   sendMessage_generation_failure "a" "hi" 7 3 (fun _ => none)
     (fun _ => some { id := 3, name := "P", description := "", samplePrompt := "" })
     (fun _ _ => Except.error ()) true true emptyStorage
     { id := 3, name := "P", description := "", samplePrompt := "" }
     (by decide) (by decide) (by decide) rfl rfl⟩

/-- Claim C3: for a successful `send_message` with a persona (generation
and its persistence succeed, or generation fails but the fallback is
persisted), the emitted sequence is exactly: the human `new_message`,
then `persona_typing`, then the AI (or fallback) `new_message` — so the
human broadcast strictly precedes the typing indicator, which strictly
precedes the AI turn; moreover the human message is already persisted in
the storage from which the generation context is assembled, and it is
the first element of that context. -/
theorem sendMessage_event_order (u message : String) (r pid : Nat)
    (users : String → Option User) (personas : Nat → Option Persona)
    (gen : Persona → List ChatMessage → Except Unit String)
    (aiOk fallbackOk : Bool) (st : Storage) (persona : Persona)
    (hu : u ≠ "") (hr : r ≠ 0) (hpid : pid ≠ 0)
    (hp : personas pid = some persona)
    (hok : ((∃ t, gen persona
          (aiContextFor
            (createMessage st
              { roomId := r, userId := some u, personaId := none, message := message }).2
            r
            (createMessage st
              { roomId := r, userId := some u, personaId := none, message := message }).1
            (users u)) = Except.ok t) ∧ aiOk = true)
      ∨ fallbackOk = true) :
    ∃ hm am : ChatMessage,
      (handleSendMessage { userId := some u, roomId := some r } message (some pid)
          users personas gen true aiOk fallbackOk st).1
        = [Emit.toRoom r (Event.new_message hm),
           Emit.toRoom r (Event.persona_typing pid r),
           Emit.toRoom r (Event.new_message am)]
      ∧ hm.msg = (createMessage st
          { roomId := r, userId := some u, personaId := none, message := message }).1
      ∧ hm.msg.userId = some u
      ∧ am.msg.personaId = some pid
      ∧ (aiContextFor
          (createMessage st
            { roomId := r, userId := some u, personaId := none, message := message }).2
          r
          (createMessage st
            { roomId := r, userId := some u, personaId := none, message := message }).1
          (users u)).head? = some hm
      ∧ (createMessage st
          { roomId := r, userId := some u, personaId := none, message := message }).1
        ∈ (createMessage st
          { roomId := r, userId := some u, personaId := none, message := message }).2.messages := by
  cases hE : gen persona
      (aiContextFor
        (createMessage st
          { roomId := r, userId := some u, personaId := none, message := message }).2
        r
        (createMessage st
          { roomId := r, userId := some u, personaId := none, message := message }).1
        (users u)) with
  | ok t =>
    cases aiOk with
    | true =>
      refine ⟨⟨(createMessage st { roomId := r, userId := some u, personaId := none, message := message }).1, users u, none, []⟩, ⟨⟨st.nextId + 1, r, none, some pid, t⟩, none, some persona, []⟩, ?_, rfl, rfl, rfl, rfl, by simp [createMessage]⟩
      simp only [createMessage] at hE
      simp [handleSendMessage, aiTurn, createMessage, hp, hE, hu, hr, hpid]
    | false =>
      have hfb : fallbackOk = true := by
        rcases hok with ⟨_, ha⟩ | hfb
        · cases ha
        · exact hfb
      subst hfb
      refine ⟨⟨(createMessage st { roomId := r, userId := some u, personaId := none, message := message }).1, users u, none, []⟩, ⟨⟨st.nextId + 1, r, none, some pid, fallbackText⟩, none, some persona, []⟩, ?_, rfl, rfl, rfl, rfl, by simp [createMessage]⟩
      simp only [createMessage] at hE
      simp [handleSendMessage, aiTurn, fallbackStep, createMessage, hp, hE, hu, hr, hpid]
  | error e =>
    have hfb : fallbackOk = true := by
      rcases hok with ⟨⟨t, ht⟩, _⟩ | hfb
      · rw [ht] at hE; cases hE
      · exact hfb
    subst hfb
    refine ⟨⟨(createMessage st { roomId := r, userId := some u, personaId := none, message := message }).1, users u, none, []⟩, ⟨⟨st.nextId + 1, r, none, some pid, fallbackText⟩, none, some persona, []⟩, ?_, rfl, rfl, rfl, rfl, by simp [createMessage]⟩
    simp only [createMessage] at hE
    simp [handleSendMessage, aiTurn, fallbackStep, createMessage, hp, hE, hu, hr, hpid]

/-- Claim C3 witness: a concrete successful generation; the three
broadcasts occur in order human message, typing indicator, AI reply. -/
theorem sendMessage_event_order_witness :
    ("a" ≠ "" ∧ (7 : Nat) ≠ 0 ∧ (3 : Nat) ≠ 0
      ∧ (fun _ : Nat =>
          some { id := 3, name := "P", description := "", samplePrompt := "" }) 3
        = some ({ id := 3, name := "P", description := "", samplePrompt := "" } : Persona)
      ∧ (((∃ t, (fun (_ : Persona) (_ : List ChatMessage) =>
              (Except.ok "Elementary" : Except Unit String))
            { id := 3, name := "P", description := "", samplePrompt := "" }
            (aiContextFor
              (createMessage emptyStorage
                { roomId := 7, userId := some "a", personaId := none, message := "hello" }).2
              7
              (createMessage emptyStorage
                { roomId := 7, userId := some "a", personaId := none, message := "hello" }).1
              ((fun _ : String => (none : Option User)) "a")) = Except.ok t) ∧ true = true)
        ∨ false = true))
    ∧ (∃ hm am : ChatMessage,
        (handleSendMessage { userId := some "a", roomId := some 7 } "hello" (some 3)
            (fun _ => none)
            (fun _ => some { id := 3, name := "P", description := "", samplePrompt := "" })
            (fun _ _ => Except.ok "Elementary") true true false emptyStorage).1
          = [Emit.toRoom 7 (Event.new_message hm),
             Emit.toRoom 7 (Event.persona_typing 3 7),
             Emit.toRoom 7 (Event.new_message am)]
        ∧ hm.msg = (createMessage emptyStorage
            { roomId := 7, userId := some "a", personaId := none, message := "hello" }).1
        ∧ hm.msg.userId = some "a"
        ∧ am.msg.personaId = some 3
        ∧ (aiContextFor
            (createMessage emptyStorage
              { roomId := 7, userId := some "a", personaId := none, message := "hello" }).2
            7
            (createMessage emptyStorage
              { roomId := 7, userId := some "a", personaId := none, message := "hello" }).1
            ((fun _ : String => (none : Option User)) "a")).head? = some hm
        ∧ (createMessage emptyStorage
            { roomId := 7, userId := some "a", personaId := none, message := "hello" }).1
          ∈ (createMessage emptyStorage
            { roomId := 7, userId := some "a", personaId := none, message := "hello" }).2.messages) :=
  ⟨⟨by decide, by decide, by decide, rfl, Or.inl ⟨⟨"Elementary", rfl⟩, rfl⟩⟩,
   sendMessage_event_order "a" "hello" 7 3 (fun _ => none)
     (fun _ => some { id := 3, name := "P", description := "", samplePrompt := "" })
     (fun _ _ => Except.ok "Elementary") true false emptyStorage
     { id := 3, name := "P", description := "", samplePrompt := "" }
     (by decide) (by decide) (by decide) rfl (Or.inl ⟨⟨"Elementary", rfl⟩, rfl⟩)⟩
